import Mathlib

/-!
Shallow embedding of the message clustering and composite-scoring engine of the
athena repository (`CommunityMessageProcessor` in
`src/athena/features/telegram/ai_services/process.py` together with the message
scoring model `ChatMessage.engagement_score` in
`src/athena/features/telegram/schemas/telegram_schemas.py`).

Conventions:
* Python floats are embedded as real numbers with exact decimal constants.
* Python lists become `List`, numpy 2-D arrays become `List (List ℝ)` (rows).
* External library calls (the LLM embedding capability, the sklearn
  TF-IDF vectorizer row sums, HDBSCAN label assignment, numpy percentile) are
  modelled as explicit oracle parameters; sklearn's `StandardScaler` is
  modelled directly (column-wise z-score with the zero-variance guard).
* Fallible Python code returns `Except String`, the error string naming the
  Python exception that would be raised.
-/

/-- The `ChatMessage` pydantic model (telegram_schemas.py lines 82-113).
`timestamp` is embedded as the UNIX epoch seconds integer (the only use the
engine makes of the datetime is `int(msg.timestamp.timestamp())`). -/
structure ChatMessage where
  message_id : ℤ
  first_name : Option String := none
  username : Option String := none
  message : String
  timestamp : ℤ
  link_preview_title : Option String := none
  link_preview_description : Option String := none
  is_self : Bool := false
  is_bot : Bool := false
  is_premium : Bool := false
  is_contact : Bool := false
  has_mention : Bool := false
  has_link : Bool := false
  reaction_count : ℕ := 0
  media_score : ℕ := 0
  deriving DecidableEq

/-- Python `len(s)` for an optional string field treated as length 0 when
`None` (telegram_schemas.py lines 123-128). -/
def optionLength : Option String → ℕ
  | none => 0
  | some s => s.length

/-- Source function `combined_message_length` (telegram_schemas.py lines 129-131). -/
def combinedMessageLength (m : ChatMessage) : ℕ :=
  m.message.length + optionLength m.link_preview_title +
    optionLength m.link_preview_description

/-- Source function `length_score` (telegram_schemas.py lines 132-139): messages shorter than
20 characters get the fixed value 0.1, otherwise `min(log1p(len)/5, 1)`.
`np.log1p x = Real.log (1 + x)`. -/
noncomputable def lengthScore (m : ChatMessage) : ℝ :=
  if combinedMessageLength m < 20 then 0.1
  else min (Real.log (1 + (combinedMessageLength m : ℝ)) / 5) 1

/-- Source function `reaction_score` (telegram_schemas.py lines 142-144): the shifted and
scaled logistic curve `1 / (1 + exp(-(reaction_count - 1) / 2))`. -/
noncomputable def reactionScore (m : ChatMessage) : ℝ :=
  1 / (1 + Real.exp (-(((m.reaction_count : ℝ) - 1) / 2)))

/-- Python `float(bool)`. -/
def boolToReal (b : Bool) : ℝ := if b then 1 else 0

/-- The weighted sum `score` (telegram_schemas.py lines 150-168).  Note: the
media term is `0.5 * self.media_score` with the raw 0-4 ordinal, not a
normalized value. -/
noncomputable def rawEngagementScore (m : ChatMessage) : ℝ :=
  0.3 * lengthScore m
    - 5.0 * boolToReal m.is_self
    - 3.0 * boolToReal m.is_bot
    + 1.0 * reactionScore m
    + 0.2 * boolToReal m.is_premium
    + 0.1 * boolToReal m.is_contact
    + 0.1 * boolToReal m.has_mention
    + 0.4 * boolToReal m.has_link
    + 0.5 * (m.media_score : ℝ)

/-- Source function `MIN_SCORE` (telegram_schemas.py line 172). -/
noncomputable def MIN_SCORE : ℝ := -5.0

/-- Source function `MAX_SCORE` (telegram_schemas.py line 173). -/
noncomputable def MAX_SCORE : ℝ := 3.0

/-- Source function `ChatMessage.engagement_score` (telegram_schemas.py lines 115-179):
min-max normalization with the fixed bounds followed by
`np.clip(x, 0.0, 1.0) = min (max x 0) 1`. -/
noncomputable def engagement_score (m : ChatMessage) : ℝ :=
  min (max ((rawEngagementScore m - MIN_SCORE) / (MAX_SCORE - MIN_SCORE)) 0) 1

/-- Spec-worded variant of the raw weighted sum for comparison: §4.1 of the
spec claims the media term is `0.5 * media_score_normalized` with the 0-4
ordinal normalized into [0,1] (claim C6), i.e. divided by 4.  All other terms
follow the code. -/
noncomputable def rawEngagementScoreClaimed (m : ChatMessage) : ℝ :=
  0.3 * lengthScore m
    - 5.0 * boolToReal m.is_self
    - 3.0 * boolToReal m.is_bot
    + 1.0 * reactionScore m
    + 0.2 * boolToReal m.is_premium
    + 0.1 * boolToReal m.is_contact
    + 0.1 * boolToReal m.has_mention
    + 0.4 * boolToReal m.has_link
    + 0.5 * ((m.media_score : ℝ) / 4)

/-! ### Basic bounds on the engagement components -/

lemma reactionScore_pos (m : ChatMessage) : 0 < reactionScore m := by
  unfold reactionScore
  have h := Real.exp_pos (-(((m.reaction_count : ℝ) - 1) / 2))
  positivity

lemma reactionScore_lt_one (m : ChatMessage) : reactionScore m < 1 := by
  unfold reactionScore
  have h := Real.exp_pos (-(((m.reaction_count : ℝ) - 1) / 2))
  rw [div_lt_one (by linarith)]
  linarith

lemma lengthScore_ge (m : ChatMessage) : 0.1 ≤ lengthScore m := by
  unfold lengthScore
  split
  · norm_num
  · rename_i h
    push_neg at h
    have h21 : (21 : ℝ) ≤ 1 + (combinedMessageLength m : ℝ) := by
      have : (20 : ℝ) ≤ (combinedMessageLength m : ℝ) := by exact_mod_cast h
      linarith
    have hlog : (0.5 : ℝ) ≤ Real.log (1 + (combinedMessageLength m : ℝ)) := by
      rw [Real.le_log_iff_exp_le (by linarith)]
      have h1 : Real.exp (0.5 : ℝ) < Real.exp 1 := by
        rw [Real.exp_lt_exp]; norm_num
      have h2 : Real.exp 1 < 2.7182818286 := Real.exp_one_lt_d9
      linarith
    refine le_min ?_ (by norm_num)
    linarith

lemma lengthScore_le_one (m : ChatMessage) : lengthScore m ≤ 1 := by
  unfold lengthScore
  split
  · norm_num
  · exact min_le_right _ _

lemma boolToReal_nonneg (b : Bool) : 0 ≤ boolToReal b := by
  unfold boolToReal; split <;> norm_num

lemma boolToReal_le_one (b : Bool) : boolToReal b ≤ 1 := by
  unfold boolToReal; split <;> norm_num

/-- Claim C1 (P1, score bounds): for every ChatMessage — any body text,
link-preview fields, boolean flags, reaction count and media ordinal — the
engagement score lies in the closed interval [0, 1].  The final
`np.clip(·, 0.0, 1.0)` enforces this for every value of the weighted sum. -/
theorem engagement_score_mem_Icc (m : ChatMessage) :
    0 ≤ engagement_score m ∧ engagement_score m ≤ 1 := by
  unfold engagement_score
  constructor
  · exact le_min (le_max_right _ _) (by norm_num)
  · exact min_le_right _ _

/-! ### MessageFilter: the engagement filtering stage
(`analyze_messages`, process.py lines 74-90) -/

/-- Source function `INITIAL_ENGAGEMENT_THRESHOLD` (process.py line 17). -/
noncomputable def INITIAL_ENGAGEMENT_THRESHOLD : ℝ := 0.75

/-- Source function `MIN_MESSAGE_PERCENTAGE` (process.py line 18). -/
noncomputable def MIN_MESSAGE_PERCENTAGE : ℝ := 0.1

/-- Source function `MAX_MESSAGES` (process.py line 19). -/
def MAX_MESSAGES : ℕ := 1000

/-- Comparison relation realizing
`sorted(messages, key=lambda msg: msg.engagement_score, reverse=True)`:
`a` may precede `b` when `a`'s engagement score is at least `b`'s. -/
def engagementGE (a b : ChatMessage) : Prop :=
  engagement_score b ≤ engagement_score a

noncomputable instance : DecidableRel engagementGE := fun a b =>
  inferInstanceAs (Decidable (engagement_score b ≤ engagement_score a))

instance : IsTotal ChatMessage engagementGE :=
  ⟨fun a b => le_total (engagement_score b) (engagement_score a)⟩

instance : IsTrans ChatMessage engagementGE :=
  ⟨fun _ _ _ hab hbc => le_trans hbc hab⟩

/-- The initial filtering step of `analyze_messages` (process.py lines 74-90):
keep messages whose engagement score exceeds the threshold; if fewer than
`MIN_MESSAGE_PERCENTAGE` of the batch survive, instead take the top
`max(int(len(messages) * MIN_MESSAGE_PERCENTAGE), MAX_MESSAGES)` messages by
descending engagement score (`int` on a nonnegative float is the floor). -/
noncomputable def filterStage (messages : List ChatMessage) : List ChatMessage :=
  let important := messages.filter fun m =>
    decide (INITIAL_ENGAGEMENT_THRESHOLD < engagement_score m)
  if (important.length : ℝ) < (messages.length : ℝ) * MIN_MESSAGE_PERCENTAGE then
    (List.insertionSort engagementGE messages).take
      (max ⌊(messages.length : ℝ) * MIN_MESSAGE_PERCENTAGE⌋₊ MAX_MESSAGES)
  else important

/-! ### EmbeddingFuser: `get_model_embeddings` (process.py lines 108-153) -/

/-- The batching loop `for i in range(0, len(messages), batch_size)` with
`batch = messages[i : i + batch_size]` (process.py lines 117-120): consecutive
chunks of size `bs`, the last possibly shorter. -/
def listChunks {α : Type*} (bs : ℕ) : List α → List (List α)
  | [] => []
  | x :: xs =>
    if h : bs = 0 then []
    else (x :: xs).take bs :: listChunks bs ((x :: xs).drop bs)
termination_by l => l.length
decreasing_by
  simp only [List.length_drop, List.length_cons]
  omega

/-- The text sent for embedding (process.py lines 125-132): the body, then the
link-preview title and description each appended on a new line when present
(Python truthiness: `None` and the empty string are both skipped). -/
def appendIfTruthy (s : String) : Option String → String
  | none => s
  | some t => if t.isEmpty then s else s ++ "\n" ++ t

/-- Full embedding text for one message. -/
def embedText (m : ChatMessage) : String :=
  appendIfTruthy (appendIfTruthy m.message m.link_preview_title)
    m.link_preview_description

/-- Shallow embedding of the try-block around the embedding call
(process.py lines 135-142):

    try:
        for _ in range(3):
            response = self.model.embed_content(batch_texts)
            break
    except Exception as e:
        ...
        raise e

The loop body unconditionally `break`s after the first call, and a raised
exception escapes the loop into the `except` handler, which re-raises it; so
regardless of the remaining fuel exactly one call is ever attempted.  `call k`
is the outcome of the `k`-th attempt (transient failures are modelled by
letting the outcome depend on the attempt number). -/
def embedAttemptLoop {α : Type*} (call : ℕ → Except String α) :
    ℕ → ℕ → Except String α
  | 0, _ => Except.error "NameError: name response is not defined"
  | _ + 1, k =>
    match call k with
    | Except.ok v => Except.ok v
    | Except.error e => Except.error e

/-- One execution of the retry block with its `range(3)` fuel. -/
def embedContentBlock {α : Type*} (call : ℕ → Except String α) :
    Except String α :=
  embedAttemptLoop call 3 0

/-- Modelled from the spec (§4.4 and §7, claim C3): the intended behaviour of
the embedding call — on failure retry, making up to `fuel` attempts in total,
and propagate the last error only once the attempts are exhausted.  Used only
to exhibit how the shipped retry block diverges from this. -/
def retryUpTo {α : Type*} (call : ℕ → Except String α) :
    ℕ → ℕ → Except String α
  | 0, _ => Except.error "no attempts permitted"
  | 1, k => call k
  | n + 2, k =>
    match call k with
    | Except.ok v => Except.ok v
    | Except.error _ => retryUpTo call (n + 1) (k + 1)

/-- The per-batch embedding collection loop (process.py lines 117-144): each
batch contributes the rows returned by the capability for its texts, in batch
order; an error aborts the whole call. -/
def embedBatches (embed : ℕ → List String → Except String (List (List ℝ))) :
    List (List ChatMessage) → Except String (List (List ℝ))
  | [] => Except.ok []
  | b :: bs => do
    let r ← embedContentBlock fun k => embed k (b.map embedText)
    let rest ← embedBatches embed bs
    Except.ok (r ++ rest)

/-- sklearn `StandardScaler().fit_transform` on a single column (process.py
lines 146-149): z-score with population statistics; sklearn replaces a zero
scale by 1 (`_handle_zeros_in_scale`). -/
noncomputable def zscore (ts : List ℝ) : List ℝ :=
  let μ := ts.sum / ts.length
  let σ := Real.sqrt ((ts.map fun t => (t - μ) ^ 2).sum / ts.length)
  let scale := if σ = 0 then 1 else σ
  ts.map fun t => (t - μ) / scale

/-- Source function `np.hstack([text_embeddings, normalized_time])` (process.py line 151):
pastes the normalized time scalar onto each embedding row as one extra
column; numpy raises unless the embedding rows are rectangular and the row
counts agree. -/
def hstackTimeColumn (rows : List (List ℝ)) (times : List ℝ) :
    Except String (List (List ℝ)) :=
  if rows.length = times.length ∧
      (rows.all fun r => r.length = (rows.headD []).length) = true then
    Except.ok (rows.zipWith (fun r t => r ++ [t]) times)
  else Except.error "ValueError: could not broadcast input arrays"

/-- Source function `get_model_embeddings` (process.py lines 108-153): batch the messages,
collect capability embeddings per batch, z-score normalize the UNIX timestamps
over the whole set, and append the normalized time as a final column. -/
noncomputable def get_model_embeddings
    (embed : ℕ → List String → Except String (List (List ℝ)))
    (messages : List ChatMessage) (batch_size : ℕ) :
    Except String (List (List ℝ)) := do
  let batches := listChunks batch_size messages
  let textEmbeddings ← embedBatches embed batches
  let timeFeatures := (batches.map fun b => b.map fun m => (m.timestamp : ℝ)).flatten
  let normalizedTime := zscore timeFeatures
  hstackTimeColumn textEmbeddings normalizedTime

/-- Source function `analyze_messages` (process.py lines 71-106): engagement filtering with the
percentage fallback, TF-IDF importance scores on the surviving messages
(the sklearn vectorizer's row sums are an oracle returning one score per
text), then embeddings; the result pairs each surviving message with its
importance score. -/
noncomputable def analyze_messages
    (tfidfRowSums : List String → Except String (List ℝ))
    (embed : ℕ → List String → Except String (List (List ℝ)))
    (messages : List ChatMessage) :
    Except String (List (ChatMessage × ℝ) × List (List ℝ)) := do
  let important := filterStage messages
  if important.isEmpty then Except.ok ([], [])
  else do
    let texts := important.map fun m => m.message
    let importanceScores ← tfidfRowSums texts
    let embeddings ← get_model_embeddings embed important 256
    Except.ok (important.zip importanceScores, embeddings)

/-! ### DensityClusterer: `cluster_messages` (process.py lines 155-197)

The sklearn HDBSCAN fit is an external library call; it is modelled as an
oracle assigning one integer label per feature-matrix row, with `-1` the noise
label.  Everything after the fit (noise discarding, grouping in first-seen
label order as a `defaultdict` would, representative selection) is embedded
from the source. -/

/-- Comparison relation realizing
`sorted(msg_score_pairs, key=lambda x: x[1], reverse=True)` (process.py
line 192): `a` may precede `b` when `a`'s importance score is at least
`b`'s. -/
def byScoreDesc (a b : ChatMessage × ℝ) : Prop := b.2 ≤ a.2

noncomputable instance : DecidableRel byScoreDesc := fun a b =>
  inferInstanceAs (Decidable (b.2 ≤ a.2))

instance : IsTotal (ChatMessage × ℝ) byScoreDesc :=
  ⟨fun a b => le_total b.2 a.2⟩

instance : IsTrans (ChatMessage × ℝ) byScoreDesc :=
  ⟨fun _ _ _ hab hbc => le_trans hbc hab⟩

/-- The message/score pairs kept by the noise-discarding loop (process.py
lines 183-186): each pair matched with its cluster label, noise (`-1`)
dropped. -/
def nonNoisePairs (pairs : List (ChatMessage × ℝ)) (labels : List ℤ) :
    List ((ChatMessage × ℝ) × ℤ) :=
  (pairs.zip labels).filter fun p => decide (p.2 ≠ -1)

/-- The `defaultdict` bucket for one label: the kept pairs carrying that
label, in message order (process.py line 186). -/
def clusterMembers (zipped : List ((ChatMessage × ℝ) × ℤ)) (lab : ℤ) :
    List (ChatMessage × ℝ) :=
  (zipped.filter fun p => decide (p.2 = lab)).map Prod.fst

/-- Iteration order of `clusters.items()`: a Python dict iterates keys in
first-insertion order, i.e. the order in which labels are first seen. -/
def firstSeenLabels (ls : List ℤ) : List ℤ :=
  ls.foldl (fun acc l => if l ∈ acc then acc else acc ++ [l]) []

/-- Representative selection for one cluster (process.py lines 190-195): sort
the bucket by descending importance score and keep the top 2. -/
noncomputable def representativePairs (members : List (ChatMessage × ℝ)) :
    List (ChatMessage × ℝ) :=
  (List.insertionSort byScoreDesc members).take 2

/-- The representative clusters still carrying scores, one per surviving
label in first-seen order. -/
noncomputable def clusterRepPairs (pairs : List (ChatMessage × ℝ))
    (labels : List ℤ) : List (List (ChatMessage × ℝ)) :=
  let zipped := nonNoisePairs pairs labels
  (firstSeenLabels (zipped.map Prod.snd)).map fun lab =>
    representativePairs (clusterMembers zipped lab)

/-- Source function `representative_clusters` (process.py lines 189-197): the scores are
dropped, leaving at most two representative messages per cluster. -/
noncomputable def buildClusters (pairs : List (ChatMessage × ℝ))
    (labels : List ℤ) : List (List ChatMessage) :=
  (clusterRepPairs pairs labels).map fun c => c.map Prod.fst

/-- sklearn `StandardScaler().fit_transform` on the full matrix (process.py
lines 172-173): column-wise z-score, re-fit per call. -/
noncomputable def standardScaleMatrix (rows : List (List ℝ)) : List (List ℝ) :=
  (rows.transpose.map zscore).transpose

/-- Source function `cluster_messages` (process.py lines 155-197).  The first statement,
`messages, importance_scores = zip(*messages_with_scores)`, raises
`ValueError` on an empty pair list (`zip()` yields no values to unpack); the
empty-embeddings guard only comes after it.  On the non-empty path the
HDBSCAN labels oracle is applied to the standardized matrix and the clusters
are assembled as in the source. -/
noncomputable def cluster_messages
    (hdbscanLabels : List (List ℝ) → List ℤ)
    (messages_with_scores : List (ChatMessage × ℝ))
    (embeddings : List (List ℝ)) : Except String (List (List ChatMessage)) :=
  match messages_with_scores with
  | [] => Except.error "ValueError: not enough values to unpack (expected 2, got 0)"
  | _ :: _ =>
    if embeddings.flatten.length = 0 then Except.ok []
    else
      Except.ok (buildClusters messages_with_scores
        (hdbscanLabels (standardScaleMatrix embeddings)))

/-! ### Composite scoring: `calculate_composite_score` and
`threshold_calculations` (process.py lines 36-69) -/

/-- The class-level numeric constants of `CommunityMessageProcessor`
(process.py lines 13-24), as the attribute table Python consults for
`self.NAME`.  The string and tuple constants (`CLUSTER_SELECTION_METHOD`,
`STOP_WORDS`, `NGRAM_RANGE`) also exist on the class but are never read by the
two composite-scoring methods, so only the numeric attributes are tabulated
here.  `COMPOSITE_SCORE_IMPORTANCE_WEIGHT`, `COMPOSITE_SCORE_ENGAGEMENT_WEIGHT`,
`QUANTILE_TOP`, `QUANTILE_BOTTOM` and `IQR_MULTIPLIER` appear nowhere in the
class body, its `__init__`, or anywhere else in the repository. -/
noncomputable def classNumericAttrs : List (String × ℝ) :=
  [("MIN_CLUSTER_SIZE", 2), ("MIN_SAMPLES", 2),
   ("CLUSTER_SELECTION_EPSILON", 0.7), ("INITIAL_ENGAGEMENT_THRESHOLD", 0.75),
   ("MIN_MESSAGE_PERCENTAGE", 0.1), ("MAX_MESSAGES", 1000),
   ("MIN_DF", 0), ("MAX_DF", 1), ("MAX_FEATURES", 1000)]

/-- Python attribute lookup `self.NAME`: a name absent from the table raises
`AttributeError`. -/
noncomputable def getClassAttr (name : String) : Except String ℝ :=
  match classNumericAttrs.lookup name with
  | some v => Except.ok v
  | none =>
    Except.error ("AttributeError: CommunityMessageProcessor object has no attribute " ++ name)

/-- Source function `calculate_composite_score` (process.py lines 36-60): TF-IDF importance
row sums (oracle), engagement scores, then the weighted combination — whose
weight constants are looked up on the instance at that point. -/
noncomputable def calculate_composite_score
    (tfidfRowSums : List String → Except String (List ℝ))
    (messages : List ChatMessage) : Except String (List ℝ) := do
  let texts := messages.map fun m => m.message
  let importanceScores ← tfidfRowSums texts
  let engagementScores := messages.map engagement_score
  let wImp ← getClassAttr "COMPOSITE_SCORE_IMPORTANCE_WEIGHT"
  let wEng ← getClassAttr "COMPOSITE_SCORE_ENGAGEMENT_WEIGHT"
  let weightedImportance := importanceScores.map fun s => wImp * s
  let weightedEngagement := engagementScores.map fun s => wEng * s
  Except.ok (weightedImportance.zipWith (fun a b => a + b) weightedEngagement)

/-- Source function `threshold_calculations` (process.py lines 62-69): Python evaluates the
percentile arguments — the `self.QUANTILE_TOP` / `self.QUANTILE_BOTTOM`
lookups — before calling `np.percentile` (an oracle returning the q75/q25
pair), then applies the IQR multiplier. -/
noncomputable def threshold_calculations
    (percentile : List ℝ → List ℝ → Except String (ℝ × ℝ))
    (composite_scores : List ℝ) : Except String ℝ := do
  let qTop ← getClassAttr "QUANTILE_TOP"
  let qBot ← getClassAttr "QUANTILE_BOTTOM"
  let pq ← percentile composite_scores [qTop, qBot]
  let iqr := pq.1 - pq.2
  let mult ← getClassAttr "IQR_MULTIPLIER"
  Except.ok (pq.1 + mult * iqr)

/-! ### Concrete example messages used by witnesses and counterexamples -/

/-- A minimal low-engagement message: short body, no flags, no reactions,
no media. -/
def exShortMsg : ChatMessage :=
  { message_id := 1, message := "hi", timestamp := 1700000000 }

/-- Identical to `exShortMsg` except that it carries an audio attachment
(`media_score = 4`, the top of the 0-4 ordinal). -/
def exMediaMsg : ChatMessage :=
  { message_id := 2, message := "hi", timestamp := 1700000000, media_score := 4 }

/-! ### Engagement-score facts used by several claims -/

/-- The raw weighted sum differs from the spec-worded one exactly by the
non-normalized part of the media term. -/
lemma rawEngagementScore_shift (m : ChatMessage) :
    rawEngagementScore m =
      rawEngagementScoreClaimed m + 0.375 * (m.media_score : ℝ) := by
  unfold rawEngagementScore rawEngagementScoreClaimed
  ring

/-- Updating only `is_self` leaves every other ingredient of the weighted sum
unchanged; the sum itself is the common part plus the `-5.0 * is_self`
penalty. -/
lemma rawEngagementScore_set_self (m : ChatMessage) (b : Bool) :
    rawEngagementScore { m with is_self := b } =
      0.3 * lengthScore m
        - 5.0 * boolToReal b
        - 3.0 * boolToReal m.is_bot
        + 1.0 * reactionScore m
        + 0.2 * boolToReal m.is_premium
        + 0.1 * boolToReal m.is_contact
        + 0.1 * boolToReal m.has_mention
        + 0.4 * boolToReal m.has_link
        + 0.5 * (m.media_score : ℝ) := rfl

/-- The min-max normalization with the fixed bounds −5 and 3, in closed
form. -/
lemma engagement_score_eq (m : ChatMessage) :
    engagement_score m = min (max ((rawEngagementScore m + 5) / 8) 0) 1 := by
  unfold engagement_score MIN_SCORE MAX_SCORE
  norm_num

/-- Comparing two clipped normalized values: strict inequality survives the
clip as long as the smaller value is below the upper clip bound and the
larger is above the lower clip bound. -/
lemma clip_lt_clip {x y : ℝ} (hx : x < 1) (hy : 0 < y) (hxy : x < y) :
    min (max x 0) 1 < min (max y 0) 1 := by
  have hl : max x 0 < 1 := max_lt hx one_pos
  rw [min_eq_left hl.le]
  rcases le_or_lt 1 y with hc | hc
  · rw [min_eq_right (le_trans hc (le_max_left _ _))]
    exact hl
  · rw [max_eq_left hy.le, min_eq_left hc.le]
    exact max_lt hxy hy

/-- Claim C5 (P2, self suppression): for two ChatMessages identical in every
field except `is_self` (with the data model's 0-4 media ordinal), the one with
`is_self = true` scores strictly lower.  The −5.0 penalty shifts the raw sum
by exactly 5, and with media ≤ 4 neither side saturates both clip bounds. -/
theorem engagement_score_self_penalty (m : ChatMessage)
    (hmedia : m.media_score ≤ 4) :
    engagement_score { m with is_self := true } <
      engagement_score { m with is_self := false } := by
  have hT := rawEngagementScore_set_self m true
  have hF := rawEngagementScore_set_self m false
  have hbT : boolToReal true = 1 := rfl
  have hbF : boolToReal false = 0 := rfl
  rw [hbT] at hT
  rw [hbF] at hF
  have hdiff : rawEngagementScore { m with is_self := true } =
      rawEngagementScore { m with is_self := false } - 5 := by
    rw [hT, hF]; ring
  have hls1 := lengthScore_ge m
  have hls2 := lengthScore_le_one m
  have hrs1 := reactionScore_pos m
  have hrs2 := reactionScore_lt_one m
  have hbot1 := boolToReal_nonneg m.is_bot
  have hbot2 := boolToReal_le_one m.is_bot
  have hprem1 := boolToReal_nonneg m.is_premium
  have hprem2 := boolToReal_le_one m.is_premium
  have hcon1 := boolToReal_nonneg m.is_contact
  have hcon2 := boolToReal_le_one m.is_contact
  have hmen1 := boolToReal_nonneg m.has_mention
  have hmen2 := boolToReal_le_one m.has_mention
  have hlink1 := boolToReal_nonneg m.has_link
  have hlink2 := boolToReal_le_one m.has_link
  have hmed1 : (0 : ℝ) ≤ (m.media_score : ℝ) := Nat.cast_nonneg _
  have hmed2 : (m.media_score : ℝ) ≤ 4 := by exact_mod_cast hmedia
  have hlow : (-3 : ℝ) < rawEngagementScore { m with is_self := false } := by
    rw [hF]; linarith
  have hhigh : rawEngagementScore { m with is_self := false } < 3 + 2 := by
    rw [hF]; linarith
  rw [engagement_score_eq, engagement_score_eq, hdiff]
  apply clip_lt_clip
  · linarith
  · linarith
  · linarith

/-- Claim C5 witness at a concrete message. -/
theorem engagement_score_self_penalty_witness :
    exShortMsg.media_score ≤ 4 ∧
      engagement_score { exShortMsg with is_self := true } <
        engagement_score { exShortMsg with is_self := false } :=
  ⟨by decide, engagement_score_self_penalty exShortMsg (by decide)⟩

/-- Claim C6 counterexample: at a message whose only nonzero feature is
`media_score = 4`, the raw weighted sum computed by the code differs from the
claimed sum with a media term normalized into [0,1] (the code contributes
`0.5 * 4 = 2.0`, the claim `0.5 * 1 = 0.5`). -/
theorem rawEngagementScore_media_not_normalized :
    rawEngagementScore exMediaMsg ≠ rawEngagementScoreClaimed exMediaMsg := by
  have h := rawEngagementScore_shift exMediaMsg
  have hm : ((exMediaMsg.media_score : ℕ) : ℝ) = 4 := by
    norm_num [exMediaMsg]
  rw [hm] at h
  intro heq
  rw [heq] at h
  linarith

/-- Claim C6 (amended): the raw engagement score before min-max normalization
equals the weighted sum `0.3*length_score − 5.0*is_self − 3.0*is_bot
+ 1.0*reaction_score + 0.2*is_premium + 0.1*is_contact + 0.1*has_mention
+ 0.4*has_link + 0.5*media_score`, where the media term uses the RAW media
ordinal (0-4) — so the media contribution is at most 2.0, not 0.5. -/
theorem rawEngagementScore_formula (m : ChatMessage) :
    (rawEngagementScore m =
      0.3 * (if combinedMessageLength m < 20 then (0.1 : ℝ)
             else min (Real.log (1 + (combinedMessageLength m : ℝ)) / 5) 1)
        - 5.0 * boolToReal m.is_self
        - 3.0 * boolToReal m.is_bot
        + 1.0 * (1 / (1 + Real.exp (-(((m.reaction_count : ℝ) - 1) / 2))))
        + 0.2 * boolToReal m.is_premium
        + 0.1 * boolToReal m.is_contact
        + 0.1 * boolToReal m.has_mention
        + 0.4 * boolToReal m.has_link
        + 0.5 * (m.media_score : ℝ))
      ∧ (m.media_score ≤ 4 → 0.5 * (m.media_score : ℝ) ≤ 2) := by
  constructor
  · rfl
  · intro h
    have : (m.media_score : ℝ) ≤ 4 := by exact_mod_cast h
    linarith

/-- Claim C6 (amended) witness at a concrete message. -/
theorem rawEngagementScore_formula_witness :
    exMediaMsg.media_score ≤ 4 ∧ 0.5 * ((exMediaMsg.media_score : ℕ) : ℝ) ≤ 2 :=
  ⟨by decide, (rawEngagementScore_formula exMediaMsg).2 (by decide)⟩

/-! ### Claim C2: the engagement filter fallback -/

/-- With no reactions the shifted sigmoid sits at `1/(1+exp(1/2)) < 1/2`. -/
lemma reactionScore_le_half_of_zero (m : ChatMessage)
    (h : m.reaction_count = 0) : reactionScore m ≤ 0.5 := by
  unfold reactionScore
  rw [h]
  have harg : -((((0 : ℕ) : ℝ) - 1) / 2) = 0.5 := by norm_num
  rw [harg]
  have h1 : (1.5 : ℝ) ≤ Real.exp 0.5 := by
    have := Real.add_one_le_exp (0.5 : ℝ)
    linarith
  rw [div_le_iff (by linarith)]
  linarith

/-- The concrete short message scores at most the engagement threshold. -/
lemma engagement_score_exShortMsg_le :
    engagement_score exShortMsg ≤ INITIAL_ENGAGEMENT_THRESHOLD := by
  have hls : lengthScore exShortMsg = 0.1 := by
    have hc : combinedMessageLength exShortMsg = 2 := by decide
    unfold lengthScore
    rw [hc]
    norm_num
  have hrs : reactionScore exShortMsg ≤ 0.5 :=
    reactionScore_le_half_of_zero exShortMsg rfl
  have hraw : rawEngagementScore exShortMsg =
      0.3 * lengthScore exShortMsg + reactionScore exShortMsg := by
    show 0.3 * lengthScore exShortMsg - 5.0 * boolToReal false
        - 3.0 * boolToReal false + 1.0 * reactionScore exShortMsg
        + 0.2 * boolToReal false + 0.1 * boolToReal false
        + 0.1 * boolToReal false + 0.4 * boolToReal false
        + 0.5 * (((0 : ℕ) : ℝ)) = _
    norm_num [boolToReal]
  rw [engagement_score_eq]
  have hu : (rawEngagementScore exShortMsg + 5) / 8 ≤ 0.75 := by
    rw [hraw, hls]
    linarith
  unfold INITIAL_ENGAGEMENT_THRESHOLD
  calc min (max ((rawEngagementScore exShortMsg + 5) / 8) 0) 1
      ≤ max ((rawEngagementScore exShortMsg + 5) / 8) 0 := min_le_left _ _
    _ ≤ 0.75 := max_le hu (by norm_num)

/-- No copy of the short message beats the threshold. -/
lemma filter_replicate_short_nil (n : ℕ) :
    (List.replicate n exShortMsg).filter
      (fun m => decide (INITIAL_ENGAGEMENT_THRESHOLD < engagement_score m)) = [] := by
  rw [List.filter_eq_nil_iff]
  intro a ha
  have h := List.eq_of_mem_replicate ha
  subst h
  simp only [decide_eq_true_eq]
  exact not_lt.mpr engagement_score_exShortMsg_le

/-- Sorting a constant list is the identity (via the sort permutation). -/
lemma insertionSort_replicate {α : Type*} (r : α → α → Prop) [DecidableRel r]
    (n : ℕ) (a : α) :
    List.insertionSort r (List.replicate n a) = List.replicate n a := by
  have hp := List.perm_insertionSort r (List.replicate n a)
  rw [List.eq_replicate_iff]
  exact ⟨by rw [hp.length_eq, List.length_replicate],
    fun b hb => List.eq_of_mem_replicate (hp.mem_iff.mp hb)⟩

/-- On a constant low-engagement batch, the filter stage runs the fallback and
keeps the first `max(int(n*0.1), 1000)` sorted messages. -/
lemma filterStage_replicate_short (n : ℕ) (hn : n ≠ 0) :
    filterStage (List.replicate n exShortMsg) =
      List.replicate
        (min (max ⌊(n : ℝ) * MIN_MESSAGE_PERCENTAGE⌋₊ MAX_MESSAGES) n)
        exShortMsg := by
  simp only [filterStage, filter_replicate_short_nil]
  have hcond : ((([] : List ChatMessage).length : ℝ) <
      ((List.replicate n exShortMsg).length : ℝ) * MIN_MESSAGE_PERCENTAGE) := by
    rw [List.length_replicate]
    unfold MIN_MESSAGE_PERCENTAGE
    have h0 : (1 : ℝ) ≤ (n : ℝ) := by
      exact_mod_cast Nat.one_le_iff_ne_zero.mpr hn
    simp only [List.length_nil, Nat.cast_zero]
    linarith
  rw [if_pos hcond, insertionSort_replicate, List.take_replicate,
    List.length_replicate]

/-- Claim C2 counterexample: a batch of 10005 identical low-engagement
messages is non-empty and has no message above the threshold (so the claim
applies), yet the filter keeps only `max(int(10005*0.1), 1000) = 1000`
messages — strictly fewer than the claimed bound
`min(10005, max(0.1*10005, 1000)) = 1000.5`, because Python `int()`
truncates `1000.5` down to `1000`. -/
theorem filterStage_minimum_recall_counterexample :
    (List.replicate 10005 exShortMsg ≠ []) ∧
    ((((List.replicate 10005 exShortMsg).filter fun m =>
        decide (INITIAL_ENGAGEMENT_THRESHOLD < engagement_score m)).length : ℝ) <
      ((List.replicate 10005 exShortMsg).length : ℝ) * MIN_MESSAGE_PERCENTAGE) ∧
    ((filterStage (List.replicate 10005 exShortMsg)).length : ℝ) <
      min ((List.replicate 10005 exShortMsg).length : ℝ)
        (max (((List.replicate 10005 exShortMsg).length : ℝ) * MIN_MESSAGE_PERCENTAGE)
          (MAX_MESSAGES : ℝ)) := by
  refine ⟨?_, ?_, ?_⟩
  · intro h
    have h2 := congrArg List.length h
    rw [List.length_replicate, List.length_nil] at h2
    exact absurd h2 (by norm_num)
  · rw [filter_replicate_short_nil, List.length_replicate]
    unfold MIN_MESSAGE_PERCENTAGE
    norm_num
  · rw [filterStage_replicate_short 10005 (by norm_num), List.length_replicate,
      List.length_replicate]
    unfold MIN_MESSAGE_PERCENTAGE MAX_MESSAGES
    have hfloor : ⌊((10005 : ℕ) : ℝ) * (0.1 : ℝ)⌋₊ = 1000 := by
      rw [Nat.floor_eq_iff (by positivity)]
      norm_num
    rw [hfloor]
    have hL : ((1000 ⊔ 1000) ⊓ 10005 : ℕ) = 1000 := by omega
    rw [hL]
    have hR1 : ((10005 : ℕ) : ℝ) * 0.1 ⊔ ((1000 : ℕ) : ℝ) = 1000.5 := by
      rw [max_eq_left (by norm_num)]
      norm_num
    rw [hR1]
    rw [min_eq_right (by norm_num)]
    norm_num

/-- Claim C2 (amended): for every non-empty batch in which fewer than 10% of
the messages have engagement score exceeding the threshold 0.75, the filter
stage discards the threshold-filtered set and returns the top-N prefix of the
batch sorted by descending engagement score, with
`N = max(int(0.1 * len(batch)), 1000)`; the result therefore contains at
least `min(len(batch), max(int(0.1 * len(batch)), 1000))` messages — the
`int(...)` floor coming from Python truncation of `len(messages) * 0.1`. -/
theorem filterStage_fallback (messages : List ChatMessage)
    (hne : messages ≠ [])
    (hfew : ((messages.filter fun m =>
        decide (INITIAL_ENGAGEMENT_THRESHOLD < engagement_score m)).length : ℝ) <
      (messages.length : ℝ) * MIN_MESSAGE_PERCENTAGE) :
    filterStage messages =
      (List.insertionSort engagementGE messages).take
        (max (messages.length / 10) MAX_MESSAGES) ∧
    min messages.length (max (messages.length / 10) MAX_MESSAGES) ≤
      (filterStage messages).length := by
  have hfloor : ⌊(messages.length : ℝ) * MIN_MESSAGE_PERCENTAGE⌋₊ =
      messages.length / 10 := by
    unfold MIN_MESSAGE_PERCENTAGE
    have h1 : (messages.length : ℝ) * 0.1 = (messages.length : ℝ) / ((10 : ℕ) : ℝ) := by
      push_cast
      ring_nf
    rw [h1, Nat.floor_div_nat, Nat.floor_natCast]
  have heq : filterStage messages =
      (List.insertionSort engagementGE messages).take
        (max (messages.length / 10) MAX_MESSAGES) := by
    simp only [filterStage]
    rw [if_pos hfew, hfloor]
  refine ⟨heq, ?_⟩
  rw [heq, List.length_take, List.length_insertionSort, min_comm]

/-- Claim C2 (amended) witness: a concrete five-message batch on the fallback
path keeps all five messages, meeting the amended bound `min(5, 1000) = 5`. -/
theorem filterStage_fallback_witness :
    (List.replicate 5 exShortMsg ≠ []) ∧
    ((((List.replicate 5 exShortMsg).filter fun m =>
        decide (INITIAL_ENGAGEMENT_THRESHOLD < engagement_score m)).length : ℝ) <
      ((List.replicate 5 exShortMsg).length : ℝ) * MIN_MESSAGE_PERCENTAGE) ∧
    min (List.replicate 5 exShortMsg).length
        (max ((List.replicate 5 exShortMsg).length / 10) MAX_MESSAGES) ≤
      (filterStage (List.replicate 5 exShortMsg)).length := by
  have h1 : List.replicate 5 exShortMsg ≠ [] := by
    intro h
    have h2 := congrArg List.length h
    rw [List.length_replicate, List.length_nil] at h2
    exact absurd h2 (by norm_num)
  have h2 : ((((List.replicate 5 exShortMsg).filter fun m =>
      decide (INITIAL_ENGAGEMENT_THRESHOLD < engagement_score m)).length : ℝ) <
      ((List.replicate 5 exShortMsg).length : ℝ) * MIN_MESSAGE_PERCENTAGE) := by
    rw [filter_replicate_short_nil, List.length_replicate]
    unfold MIN_MESSAGE_PERCENTAGE
    norm_num
  exact ⟨h1, h2, (filterStage_fallback (List.replicate 5 exShortMsg) h1 h2).2⟩

/-! ### Claim C3: the embedding retry block -/

/-- A transient embedding failure: the first attempt raises, any later
attempt would succeed. -/
noncomputable def transientFailCall (k : ℕ) : Except String (List (List ℝ)) :=
  if k = 0 then Except.error "TransientProviderError" else Except.ok [[0]]

/-- Claim C3, the code evaluated at the failing input: the shipped
`for _ in range(3): response = embed_content(...); break` block inside a
re-raising `except` makes exactly one call — a single transient failure is
propagated immediately, even though the second attempt would have succeeded
and the spec-modelled retry of up to 3 attempts returns that success. -/
theorem embedContentBlock_no_retry :
    embedContentBlock transientFailCall = Except.error "TransientProviderError" ∧
    transientFailCall 1 = Except.ok [[0]] ∧
    retryUpTo transientFailCall 3 0 = Except.ok [[0]] :=
  ⟨rfl, rfl, rfl⟩

/-! ### Claim C4: clustering on empty input -/

/-- Claim C4, the code evaluated at the failing input: with an empty
scored-message list and an empty feature matrix, `cluster_messages` raises
`ValueError` at `messages, importance_scores = zip(*messages_with_scores)`
instead of returning an empty cluster list (the empty-embeddings guard sits
after the unpacking and is never reached). -/
theorem cluster_messages_empty_raises :
    cluster_messages (fun _ => []) [] [] =
      Except.error "ValueError: not enough values to unpack (expected 2, got 0)" :=
  rfl

/-! ### Claim C7: noise points never reach the output -/

/-- Every member of a representative bucket descends from the non-noise
zipped list, with a non-noise label. -/
lemma mem_clusterRepPairs_sub (pairs : List (ChatMessage × ℝ)) (labels : List ℤ)
    {c : List (ChatMessage × ℝ)} (hc : c ∈ clusterRepPairs pairs labels)
    {q : ChatMessage × ℝ} (hq : q ∈ c) :
    ∃ lab, (q, lab) ∈ pairs.zip labels ∧ lab ≠ -1 := by
  unfold clusterRepPairs at hc
  rw [List.mem_map] at hc
  obtain ⟨lab, _hlab, rfl⟩ := hc
  unfold representativePairs at hq
  have hq2 := (List.take_sublist 2 _).subset hq
  rw [List.mem_insertionSort] at hq2
  unfold clusterMembers at hq2
  rw [List.mem_map] at hq2
  obtain ⟨p, hp, hpq⟩ := hq2
  rw [List.mem_filter, decide_eq_true_eq] at hp
  obtain ⟨hpz, hplab⟩ := hp
  unfold nonNoisePairs at hpz
  rw [List.mem_filter, decide_eq_true_eq] at hpz
  obtain ⟨hpzip, hpnn⟩ := hpz
  refine ⟨lab, ?_, ?_⟩
  · have hpair : p = (q, lab) := by
      obtain ⟨p1, p2⟩ := p
      simp only at hpq hplab
      rw [hpq, hplab]
    rwa [hpair] at hpzip
  · rw [← hplab]
    exact hpnn

/-- Claim C7 (P5, no noise leakage): for every input to the clustering stage
— any message/score pairs with pairwise-distinct messages and any label
assignment the density clustering may produce — a message assigned the noise
label (−1) appears in no returned cluster: noise points are dropped
entirely, not turned into singleton clusters. -/
theorem buildClusters_no_noise (pairs : List (ChatMessage × ℝ))
    (labels : List ℤ) (p : ChatMessage × ℝ)
    (hnodup : (pairs.map Prod.fst).Nodup)
    (hmem : (p, (-1 : ℤ)) ∈ pairs.zip labels) :
    p.1 ∉ (buildClusters pairs labels).flatten := by
  intro hflat
  rw [List.mem_flatten] at hflat
  obtain ⟨c, hc, hmsg⟩ := hflat
  unfold buildClusters at hc
  rw [List.mem_map] at hc
  obtain ⟨cp, hcp, rfl⟩ := hc
  rw [List.mem_map] at hmsg
  obtain ⟨q, hqcp, hq1⟩ := hmsg
  obtain ⟨lab, hqzip, hlabne⟩ := mem_clusterRepPairs_sub pairs labels hcp hqcp
  obtain ⟨i, hi, hieq⟩ := List.getElem_of_mem hqzip
  obtain ⟨j, hj, hjeq⟩ := List.getElem_of_mem hmem
  have hi1 : i < pairs.length :=
    lt_of_lt_of_le hi (by rw [List.length_zip]; exact min_le_left _ _)
  have hj1 : j < pairs.length :=
    lt_of_lt_of_le hj (by rw [List.length_zip]; exact min_le_left _ _)
  have hil : i < labels.length :=
    lt_of_lt_of_le hi (by rw [List.length_zip]; exact min_le_right _ _)
  have hjl : j < labels.length :=
    lt_of_lt_of_le hj (by rw [List.length_zip]; exact min_le_right _ _)
  have hiq : (pairs[i], labels[i]) = (q, lab) :=
    (List.getElem_zip (h := hi)).symm.trans hieq
  have hjq : (pairs[j], labels[j]) = (p, -1) :=
    (List.getElem_zip (h := hj)).symm.trans hjeq
  have hpi : pairs[i] = q := congrArg Prod.fst hiq
  have hpj : pairs[j] = p := congrArg Prod.fst hjq
  have hli : labels[i] = lab := congrArg Prod.snd hiq
  have hlj : labels[j] = (-1 : ℤ) := congrArg Prod.snd hjq
  have hmapi : i < (pairs.map Prod.fst).length := by
    rw [List.length_map]; exact hi1
  have hmapj : j < (pairs.map Prod.fst).length := by
    rw [List.length_map]; exact hj1
  have hmapeq : (pairs.map Prod.fst)[i] = (pairs.map Prod.fst)[j] := by
    rw [List.getElem_map, List.getElem_map, hpi, hpj, hq1]
  have hij : i = j := (hnodup.getElem_inj_iff).mp hmapeq
  subst hij
  exact hlabne (hli.symm.trans hlj)

/-! ### Concrete clustering inputs for the C7 and C8 witnesses -/

/-- First of three pairwise-distinct example messages. -/
def exMsgA : ChatMessage := { message_id := 10, message := "alpha", timestamp := 100 }

/-- Second of three pairwise-distinct example messages. -/
def exMsgB : ChatMessage := { message_id := 11, message := "beta", timestamp := 200 }

/-- Third of three pairwise-distinct example messages. -/
def exMsgC : ChatMessage := { message_id := 12, message := "gamma", timestamp := 300 }

/-- Three scored messages for the clustering witnesses. -/
noncomputable def exPairs : List (ChatMessage × ℝ) :=
  [(exMsgA, 1), (exMsgB, 2), (exMsgC, 3)]

/-- A label assignment putting the first two messages into cluster 0 and
marking the third as noise. -/
def exLabels : List ℤ := [0, 0, -1]

/-- Claim C7 witness: the concrete noise-labeled message is absent from all
clusters built for the concrete input. -/
theorem buildClusters_no_noise_witness :
    exMsgC ∉ (buildClusters exPairs exLabels).flatten := by
  have hnodup : (exPairs.map Prod.fst).Nodup := by
    have h : exPairs.map Prod.fst = [exMsgA, exMsgB, exMsgC] := rfl
    rw [h]
    decide
  have hz : exPairs.zip exLabels =
      [((exMsgA, (1 : ℝ)), (0 : ℤ)), ((exMsgB, (2 : ℝ)), (0 : ℤ)),
        ((exMsgC, (3 : ℝ)), (-1 : ℤ))] := rfl
  have hmem : ((exMsgC, (3 : ℝ)), (-1 : ℤ)) ∈ exPairs.zip exLabels := by
    rw [hz]
    exact List.Mem.tail _ (List.Mem.tail _ (List.Mem.head _))
  exact buildClusters_no_noise exPairs exLabels (exMsgC, 3) hnodup hmem

/-! ### Claim C8: representative cap and ordering -/

/-- Claim C8 (P6, representative cap): every cluster returned by the
clustering stage contains at most 2 messages; moreover each representative
bucket (the scored list whose message parts form the returned cluster) has at
most 2 entries and is sorted by descending lexical-importance score, so a
2-element cluster lists its higher-scored message first. -/
theorem buildClusters_rep_cap (pairs : List (ChatMessage × ℝ))
    (labels : List ℤ) :
    (∀ c ∈ buildClusters pairs labels, c.length ≤ 2) ∧
    (∀ cp ∈ clusterRepPairs pairs labels,
      cp.length ≤ 2 ∧ List.Sorted byScoreDesc cp ∧
      cp.map Prod.fst ∈ buildClusters pairs labels) := by
  have hcp : ∀ cp ∈ clusterRepPairs pairs labels,
      cp.length ≤ 2 ∧ List.Sorted byScoreDesc cp := by
    intro cp hmem
    unfold clusterRepPairs at hmem
    rw [List.mem_map] at hmem
    obtain ⟨lab, _hlab, rfl⟩ := hmem
    unfold representativePairs
    refine ⟨List.length_take_le _ _, ?_⟩
    exact List.Pairwise.sublist (List.take_sublist 2 _)
      (List.sorted_insertionSort byScoreDesc _)
  constructor
  · intro c hc
    unfold buildClusters at hc
    rw [List.mem_map] at hc
    obtain ⟨cp, hcpm, rfl⟩ := hc
    rw [List.length_map]
    exact (hcp cp hcpm).1
  · intro cp hmem
    refine ⟨(hcp cp hmem).1, (hcp cp hmem).2, ?_⟩
    unfold buildClusters
    exact List.mem_map_of_mem _ hmem

/-- Claim C8 witness: at a concrete single-message, single-label input the
returned cluster and its representative bucket satisfy the cap and
ordering. -/
theorem buildClusters_rep_cap_witness :
    ([(exMsgA, (1 : ℝ))] ∈ clusterRepPairs [(exMsgA, (1 : ℝ))] [0]) ∧
    ([(exMsgA, (1 : ℝ))].length ≤ 2 ∧
      List.Sorted byScoreDesc [(exMsgA, (1 : ℝ))] ∧
      [(exMsgA, (1 : ℝ))].map Prod.fst ∈ buildClusters [(exMsgA, (1 : ℝ))] [0]) := by
  have hval : clusterRepPairs [(exMsgA, (1 : ℝ))] [0] = [[(exMsgA, (1 : ℝ))]] := rfl
  have hmem : [(exMsgA, (1 : ℝ))] ∈ clusterRepPairs [(exMsgA, (1 : ℝ))] [0] := by
    rw [hval]
    exact List.Mem.head _
  exact ⟨hmem, (buildClusters_rep_cap [(exMsgA, (1 : ℝ))] [0]).2 _ hmem⟩

/-! ### Claim C9: vector alignment through `analyze_messages` -/

/-- Chunking with a positive batch size covers the list exactly. -/
lemma listChunks_flatten {α : Type*} (bs : ℕ) (hbs : bs ≠ 0) (l : List α) :
    (listChunks bs l).flatten = l := by
  have H : ∀ (n : ℕ) (l : List α), l.length = n → (listChunks bs l).flatten = l := by
    intro n
    induction n using Nat.strong_induction_on with
    | _ n ih =>
      intro l hn
      cases l with
      | nil => simp [listChunks]
      | cons x xs =>
        rw [listChunks, dif_neg hbs, List.flatten_cons]
        have hlt : ((x :: xs).drop bs).length < n := by
          rw [← hn]
          simp only [List.length_drop, List.length_cons]
          omega
        rw [ih _ hlt _ rfl, List.take_append_drop]
  exact H l.length l rfl

/-- The (broken) retry block reduces to a single call at attempt 0. -/
lemma embedContentBlock_eq {α : Type*} (call : ℕ → Except String α) :
    embedContentBlock call = call 0 := by
  have hb : embedContentBlock call =
      (match call 0 with
       | Except.ok v => Except.ok v
       | Except.error e => Except.error e) := rfl
  rw [hb]
  cases call 0 <;> rfl

/-- If every capability call succeeds with one `d`-dimensional vector per
text, collecting over the batches succeeds with one row per message, each of
dimension `d`. -/
lemma embedBatches_length (d : ℕ)
    (embed : ℕ → List String → Except String (List (List ℝ)))
    (hembed : ∀ k ts, ∃ vs, embed k ts = Except.ok vs ∧ vs.length = ts.length ∧
      ∀ v ∈ vs, v.length = d) :
    ∀ batches : List (List ChatMessage),
      ∃ rows, embedBatches embed batches = Except.ok rows ∧
        rows.length = (batches.map List.length).sum ∧
        ∀ r ∈ rows, r.length = d := by
  intro batches
  induction batches with
  | nil => exact ⟨[], rfl, rfl, fun r hr => absurd hr (List.not_mem_nil r)⟩
  | cons b bs ih =>
    obtain ⟨vs, hvs, hvl, hvd⟩ := hembed 0 (b.map embedText)
    obtain ⟨rest, hrest, hrl, hrd⟩ := ih
    refine ⟨vs ++ rest, ?_, ?_, ?_⟩
    · rw [embedBatches]
      simp only [embedContentBlock_eq, hvs, hrest]
      rfl
    · rw [List.length_append, hvl, List.length_map, hrl, List.map_cons,
        List.sum_cons]
    · intro r hr
      rcases List.mem_append.mp hr with h | h
      · exact hvd r h
      · exact hrd r h

/-- Source function `zscore` is length-preserving. -/
lemma zscore_length (ts : List ℝ) : (zscore ts).length = ts.length := by
  simp only [zscore, List.length_map]

/-- A rectangular list of rows passes the numpy hstack shape check. -/
lemma all_length_eq_headD {rows : List (List ℝ)} (d : ℕ)
    (h : ∀ r ∈ rows, r.length = d) :
    (rows.all fun r => r.length = (rows.headD []).length) = true := by
  rw [List.all_eq_true]
  intro r hr
  cases rows with
  | nil => exact absurd hr (List.not_mem_nil r)
  | cons t ts =>
    rw [List.headD_cons]
    simp only [decide_eq_true_eq]
    rw [h r hr, h t (List.mem_cons_self t ts)]

/-- Under the capability precondition (one `d`-dimensional vector per text),
`get_model_embeddings` succeeds with one row per message and `d + 1` columns
per row (the extra column being the normalized time feature). -/
lemma get_model_embeddings_shape (d : ℕ)
    (embed : ℕ → List String → Except String (List (List ℝ)))
    (hembed : ∀ k ts, ∃ vs, embed k ts = Except.ok vs ∧ vs.length = ts.length ∧
      ∀ v ∈ vs, v.length = d)
    (messages : List ChatMessage) :
    ∃ rows, get_model_embeddings embed messages 256 = Except.ok rows ∧
      rows.length = messages.length ∧ ∀ r ∈ rows, r.length = d + 1 := by
  obtain ⟨trows, htrows, htlen, htdim⟩ :=
    embedBatches_length d embed hembed (listChunks 256 messages)
  have hsum : ((listChunks 256 messages).map List.length).sum = messages.length := by
    rw [← List.length_flatten, listChunks_flatten 256 (by norm_num) messages]
  have htlen2 : trows.length = messages.length := by
    rw [htlen]
    exact hsum
  have htime : ((listChunks 256 messages).map fun b =>
      b.map fun m => (m.timestamp : ℝ)).flatten.length = messages.length := by
    rw [List.length_flatten, List.map_map]
    have hcongr : List.map (List.length ∘ fun b => b.map fun m => (m.timestamp : ℝ))
        (listChunks 256 messages) = (listChunks 256 messages).map List.length := by
      apply List.map_congr_left
      intro b _
      simp [List.length_map]
    rw [hcongr, hsum]
  have hteq : (zscore (((listChunks 256 messages).map fun b =>
      b.map fun m => (m.timestamp : ℝ)).flatten)).length = messages.length := by
    rw [zscore_length, htime]
  have hcond1 : trows.length = (zscore (((listChunks 256 messages).map fun b =>
      b.map fun m => (m.timestamp : ℝ)).flatten)).length := by
    rw [htlen2, hteq]
  have hall := all_length_eq_headD d htdim
  refine ⟨trows.zipWith (fun r t => r ++ [t])
    (zscore (((listChunks 256 messages).map fun b =>
      b.map fun m => (m.timestamp : ℝ)).flatten)), ?_, ?_, ?_⟩
  · simp only [get_model_embeddings, htrows]
    show hstackTimeColumn trows _ = _
    unfold hstackTimeColumn
    rw [if_pos ⟨hcond1, hall⟩]
  · rw [List.length_zipWith, htlen2, hteq, min_self]
  · intro r hr
    obtain ⟨i, hi, heq⟩ := List.getElem_of_mem hr
    rw [← heq, List.getElem_zipWith, List.length_append,
      htdim _ (List.getElem_mem _), List.length_singleton]

/-- Claim C9 (P4, vector alignment): for every non-empty message list, under
the precondition that the embedding capability returns exactly one vector of
fixed dimension `d` per input text (and the TF-IDF library one row sum per
text), `analyze_messages` returns a scored-message list and a feature matrix
with one row per scored message and `d + 1` columns per row, the extra
column being the normalized time feature. -/
theorem analyze_messages_alignment (d : ℕ)
    (tfidfRowSums : List String → Except String (List ℝ))
    (embed : ℕ → List String → Except String (List (List ℝ)))
    (htfidf : ∀ ts, ∃ v, tfidfRowSums ts = Except.ok v ∧ v.length = ts.length)
    (hembed : ∀ k ts, ∃ vs, embed k ts = Except.ok vs ∧ vs.length = ts.length ∧
      ∀ v ∈ vs, v.length = d)
    (messages : List ChatMessage) (hne : messages ≠ []) :
    ∃ out, analyze_messages tfidfRowSums embed messages = Except.ok out ∧
      out.2.length = out.1.length ∧ ∀ r ∈ out.2, r.length = d + 1 := by
  by_cases hemp : (filterStage messages).isEmpty = true
  · refine ⟨([], []), ?_, rfl, fun r hr => absurd hr (List.not_mem_nil r)⟩
    simp only [analyze_messages, hemp]
    rfl
  · obtain ⟨v, hv, hvlen⟩ := htfidf ((filterStage messages).map fun m => m.message)
    obtain ⟨rows, hrows, hrlen, hrdim⟩ :=
      get_model_embeddings_shape d embed hembed (filterStage messages)
    refine ⟨((filterStage messages).zip v, rows), ?_, ?_, hrdim⟩
    · simp only [analyze_messages, Bool.not_eq_true] at hemp ⊢
      rw [hemp]
      simp only [Bool.false_eq_true, if_false, hv, hrows]
      rfl
    · show rows.length = ((filterStage messages).zip v).length
      rw [hrlen, List.length_zip, hvlen, List.length_map, min_self]

/-- Claim C9 witness: concrete constant oracles (dimension 2) on a concrete
one-message batch. -/
theorem analyze_messages_alignment_witness :
    ∃ out, analyze_messages (fun ts => Except.ok (ts.map fun _ => (0 : ℝ)))
        (fun _ ts => Except.ok (ts.map fun _ => [(0 : ℝ), 0])) [exShortMsg] =
        Except.ok out ∧
      out.2.length = out.1.length ∧ ∀ r ∈ out.2, r.length = 2 + 1 := by
  apply analyze_messages_alignment 2
  · intro ts
    exact ⟨ts.map fun _ => (0 : ℝ), rfl, by rw [List.length_map]⟩
  · intro k ts
    refine ⟨ts.map fun _ => [(0 : ℝ), 0], rfl, by rw [List.length_map], ?_⟩
    intro v hv
    rw [List.mem_map] at hv
    obtain ⟨_, _, rfl⟩ := hv
    rfl
  · exact List.cons_ne_nil _ _

/-! ### Claim C10: the composite-scoring operations are unusable -/

/-- Claim C10: for every non-empty message list (and a TF-IDF oracle that
succeeds on its texts), `calculate_composite_score` raises `AttributeError`
because `COMPOSITE_SCORE_IMPORTANCE_WEIGHT` is never defined on the class;
and `threshold_calculations` raises `AttributeError` on every input because
`QUANTILE_TOP` is undefined (the lookup happens while building the percentile
arguments, before numpy is ever called). -/
theorem composite_scoring_attribute_errors
    (tfidfRowSums : List String → Except String (List ℝ))
    (messages : List ChatMessage) (hne : messages ≠ [])
    (htfidf : ∃ v, tfidfRowSums (messages.map fun m => m.message) = Except.ok v) :
    calculate_composite_score tfidfRowSums messages =
      Except.error "AttributeError: CommunityMessageProcessor object has no attribute COMPOSITE_SCORE_IMPORTANCE_WEIGHT" ∧
    ∀ (percentile : List ℝ → List ℝ → Except String (ℝ × ℝ)) (scores : List ℝ),
      threshold_calculations percentile scores =
        Except.error "AttributeError: CommunityMessageProcessor object has no attribute QUANTILE_TOP" := by
  constructor
  · obtain ⟨v, hv⟩ := htfidf
    simp only [calculate_composite_score]
    rw [hv]
    rfl
  · intro percentile scores
    rfl

/-- Claim C10 witness: concrete oracles and a concrete one-message list. -/
theorem composite_scoring_attribute_errors_witness :
    (([exShortMsg] : List ChatMessage) ≠ []) ∧
    calculate_composite_score (fun ts => Except.ok (ts.map fun _ => (0 : ℝ)))
        [exShortMsg] =
      Except.error "AttributeError: CommunityMessageProcessor object has no attribute COMPOSITE_SCORE_IMPORTANCE_WEIGHT" ∧
    threshold_calculations (fun _ _ => Except.ok ((0 : ℝ), (0 : ℝ))) [] =
      Except.error "AttributeError: CommunityMessageProcessor object has no attribute QUANTILE_TOP" := by
  have hne : ([exShortMsg] : List ChatMessage) ≠ [] := List.cons_ne_nil _ _
  have h := composite_scoring_attribute_errors
    (fun ts => Except.ok (ts.map fun _ => (0 : ℝ))) [exShortMsg] hne
    ⟨([exShortMsg].map fun m => m.message).map fun _ => (0 : ℝ), rfl⟩
  exact ⟨hne, h.1, h.2 (fun _ _ => Except.ok ((0 : ℝ), (0 : ℝ))) []⟩
